import Mathlib

/-!
Shallow embedding of the qadataswap shared-memory ring
(`src/cpp/src/shared_memory_arena.cpp`, `src/cpp/include/qadataswap_core.h`).

The embedding mirrors the C++ source:
* `size_t` / `uint64_t` arithmetic is `Nat`; where the source can wrap
  (the `total_size - header_size` subtraction in the constructor) the
  wraparound is taken mod `2 ^ 64` explicitly.  The two sequence counters
  are monotone `uint64_t` counts; reaching their wrap needs `2 ^ 64`
  successful operations, which is not modelled.
* POSIX objects are modelled by their observable values: a semaphore is
  its counter, `sem_wait` is a guarded decrement (a blocked wait is a
  disabled transition, not an error), `sem_post` an increment.
* The Arrow IPC codec is external: a batch is abstracted by its
  serialized size (`FixedSizeBufferWriter` fails exactly when the stream
  exceeds the slot capacity), and deserialization success is a parameter.
-/

namespace QADataSwap

/-- `CACHE_LINE_SIZE` from `qadataswap_core.h`. -/
def CACHE_LINE_SIZE : Nat := 64

/-- `MAGIC_NUMBER = 0x51444153` from `qadataswap_core.h`. -/
def MAGIC_NUMBER : Nat := 0x51444153

/-- `VERSION = 1` from `qadataswap_core.h`. -/
def VERSION : Nat := 1

/-- `sizeof(SharedMemoryHeader)` under `#pragma pack(1)` with
`alignas(64)`: the packed fields occupy 4+4+7*8+2*8+1+4+2*64 = 213 bytes,
rounded up to the 64-byte struct alignment. -/
def sizeofSharedMemoryHeader : Nat := 256

/-- `sizeof(SharedMemoryHeader::BufferState)` under `#pragma pack(1)`:
atomic u64 + atomic bool + atomic u64 = 8+1+8. -/
def sizeofBufferState : Nat := 17

/-- One `uint64_t` / `size_t` wraparound modulus. -/
def U64 : Nat := 2 ^ 64

/-- `x & ~(CACHE_LINE_SIZE - 1)` on a 64-bit value: clear the low 6 bits. -/
def alignDownCL (x : Nat) : Nat := x - x % CACHE_LINE_SIZE

/-- `(x + CACHE_LINE_SIZE - 1) & ~(CACHE_LINE_SIZE - 1)`. -/
def alignUpCL (x : Nat) : Nat := alignDownCL (x + CACHE_LINE_SIZE - 1)

/-- `size_t` subtraction `a - b` (wraps mod `2 ^ 64`); callers have
`a, b < 2 ^ 64`. -/
def subU64 (a b : Nat) : Nat := (a + U64 - b) % U64

/-- `sizeof(SharedMemoryHeader) + sizeof(BufferState) * buffer_count`,
the unaligned header size the source computes in both the constructor and
`InitializeHeader`. -/
def rawHeaderSize (buffer_count : Nat) : Nat :=
  sizeofSharedMemoryHeader + sizeofBufferState * buffer_count

/-- The constructor's local `header_size` after its align-up step. -/
def ctorHeaderSize (buffer_count : Nat) : Nat := alignUpCL (rawHeaderSize buffer_count)

/-- `buffer_size_` as the constructor computes it:
`(total_size_ - header_size) / buffer_count` in `size_t` arithmetic,
then aligned down to the cache line.  When `total_size < header_size`
the subtraction wraps mod `2 ^ 64`. -/
def ctorBufferSize (total_size buffer_count : Nat) : Nat :=
  alignDownCL (subU64 total_size (ctorHeaderSize buffer_count) / buffer_count)

/-- `SharedMemoryHeader::BufferState`: the per-slot control words. -/
structure BufferState where
  data_size : Nat
  ready : Bool
  timestamp : Nat
deriving DecidableEq

/-- The empty slot state `InitializeHeader` stores. -/
def emptySlot : BufferState := ⟨0, false, 0⟩

/-- `SharedMemoryHeader`: the control block at offset 0 of the region. -/
structure SharedMemoryHeader where
  magic : Nat
  version : Nat
  total_size : Nat
  header_size : Nat
  schema_offset : Nat
  schema_size : Nat
  buffer_count : Nat
  buffer_size : Nat
  buffers_offset : Nat
  write_sequence : Nat
  read_sequence : Nat
  writer_active : Bool
  reader_count : Int
  write_sem_name : String
  read_sem_name : String
  buffer_states : List BufferState
deriving DecidableEq

/-- `snprintf` into a `char[cap]` buffer: at most `cap - 1` characters are
kept, followed by the null terminator. -/
def truncCString (cap : Nat) (s : String) : String :=
  String.mk (s.toList.take (cap - 1))

/-- The name `CreateWriter` writes into `header_->write_sem_name`
(`snprintf(..., sizeof 64, "/qads_w_%s", name)`); this semaphore counts
free slots (initial value `buffer_count`). -/
def writeSemName (name : String) : String := truncCString 64 ("/qads_w_" ++ name)

/-- The name `CreateWriter` writes into `header_->read_sem_name`
(`snprintf(..., sizeof 64, "/qads_r_%s", name)`); this semaphore counts
ready slots (initial value 0). -/
def readSemName (name : String) : String := truncCString 64 ("/qads_r_" ++ name)

/-- `SharedMemoryArena::InitializeHeader()`: the header as written into a
fresh region.  `buffer_size` is the value the constructor computed;
`header_size` is stored UNALIGNED and `buffers_offset` is its align-up. -/
def initializeHeader (total_size buffer_count buffer_size : Nat) : SharedMemoryHeader :=
  { magic := MAGIC_NUMBER
    version := VERSION
    total_size := total_size
    header_size := rawHeaderSize buffer_count
    schema_offset := 0
    schema_size := 0
    buffer_count := buffer_count
    buffer_size := buffer_size
    buffers_offset := alignUpCL (rawHeaderSize buffer_count)
    write_sequence := 0
    read_sequence := 0
    writer_active := false
    reader_count := 0
    write_sem_name := ""
    read_sem_name := ""
    buffer_states := List.replicate buffer_count emptySlot }

/-- One named-semaphore call `CreateWriter` issues. -/
inductive SemOp where
  | unlink (name : String)
  /-- models `sem_open(name, O_CREAT | O_EXCL, 0644, initial)` -/
  | openExcl (name : String) (mode : Nat) (initial : Nat)
deriving DecidableEq

/-- The semaphore calls of `SharedMemoryArena::CreateWriter`, in source
order: both names are unlinked first, then created exclusively, the
free-slot semaphore with initial value `buffer_count_`, the ready-slot
semaphore with initial value 0. -/
def createWriterSemOps (name : String) (buffer_count : Nat) : List SemOp :=
  [ SemOp.unlink (writeSemName name)
  , SemOp.unlink (readSemName name)
  , SemOp.openExcl (writeSemName name) 0o644 buffer_count
  , SemOp.openExcl (readSemName name) 0o644 0 ]

/-- The handle state `CreateWriter` leaves behind. -/
structure ArenaHandle where
  name : String
  total_size : Nat
  buffer_count : Nat
  buffer_size : Nat
  header : SharedMemoryHeader
  is_writer : Bool
deriving DecidableEq

/-- `SharedMemoryArena::CreateWriter` for a handle constructed with
`(name, total_size, buffer_count)`.  The source fails only when the handle
is already attached or an OS call (`shm_open`, `ftruncate`, `mmap`,
`sem_open`) fails; the OS calls are modelled as succeeding.  No validation
of `total_size` against the header size exists in the source. -/
def createWriter (name : String) (total_size buffer_count : Nat)
    (is_attached : Bool) : Option ArenaHandle :=
  if is_attached then none
  else
    let bsize := ctorBufferSize total_size buffer_count
    let hdr := initializeHeader total_size buffer_count bsize
    let hdr := { hdr with
      write_sem_name := writeSemName name
      read_sem_name := readSemName name
      writer_active := true }
    some { name := name, total_size := total_size, buffer_count := buffer_count,
           buffer_size := bsize, header := hdr, is_writer := true }

/-- What `AttachSharedMemory` copies into the handle on success. -/
structure AttachResult where
  buffer_count : Nat
  buffer_size : Nat
  total_size : Nat
deriving DecidableEq

/-- `SharedMemoryArena::AttachSharedMemory`, given the mapped header and
the `fstat`-reported region size.  The source sets `total_size_` from
`fstat`, then verifies ONLY `magic` and `version` (one combined branch);
it performs no geometry cross-check, and on success copies
`buffer_count` and `buffer_size` out of the header. -/
def attachSharedMemory (hdr : SharedMemoryHeader) (osSize : Nat) :
    Option AttachResult :=
  if hdr.magic ≠ MAGIC_NUMBER ∨ hdr.version ≠ VERSION then none
  else some { buffer_count := hdr.buffer_count, buffer_size := hdr.buffer_size,
              total_size := osSize }

/-- `SharedMemoryArena::Stats`, the per-handle counters. -/
structure Stats where
  bytes_written : Nat
  bytes_read : Nat
  writes_count : Nat
  reads_count : Nat
  wait_timeouts : Nat
deriving DecidableEq

/-- The shared state `WriteRecordBatch` / `ReadRecordBatch` touch:
the two semaphore counters, the sequence counters and per-slot states
from the mapped header, plus the (handle-local) stats. -/
structure ArenaState where
  write_sem : Nat
  read_sem : Nat
  write_sequence : Nat
  read_sequence : Nat
  buffer_states : List BufferState
  stats : Stats
deriving DecidableEq

/-- `SharedMemoryArena::GetNextWriteBuffer()`:
`write_sequence % buffer_count_`. -/
def GetNextWriteBuffer (buffer_count : Nat) (s : ArenaState) : Nat :=
  s.write_sequence % buffer_count

/-- `SharedMemoryArena::GetCurrentReadBuffer()`:
`read_sequence % buffer_count_`. -/
def GetCurrentReadBuffer (buffer_count : Nat) (s : ArenaState) : Nat :=
  s.read_sequence % buffer_count

/-- The error returns of `WriteRecordBatch` / `ReadRecordBatch`. -/
inductive ArenaError where
  /-- the `Invalid("Not attached as writer")` return -/
  | notWriter
  /-- the `Invalid("Not attached as reader")` return -/
  | notReader
  /-- the `ARROW_RETURN_NOT_OK(SerializeRecordBatch(...))` early return -/
  | serializeFailed
  /-- the `IOError("Timeout waiting for data")` return -/
  | timeout
  /-- the `IOError("Buffer not ready")` return -/
  | bufferNotReady
  /-- a failing `DeserializeRecordBatch` result -/
  | deserializeFailed
deriving DecidableEq

/-- `SharedMemoryArena::WriteRecordBatch`, after a successful
`sem_wait(write_sem_)` (callers supply `0 < s.write_sem`; a zero counter
blocks rather than fails).  The batch is abstracted by its serialized
stream size `sz`: `FixedSizeBufferWriter` over the `buffer_size`-byte slot
fails exactly when `sz > buffer_size`, and on that failure the source
returns at once — the decremented free-semaphore token is NOT posted
back.  `now` is the `steady_clock` microsecond stamp. -/
def writeRecordBatch (buffer_count buffer_size : Nat)
    (is_writer is_attached : Bool) (sz now : Nat) (s : ArenaState) :
    Option ArenaError × ArenaState :=
  if !is_writer || !is_attached then (some ArenaError.notWriter, s)
  else
    let s1 := { s with write_sem := s.write_sem - 1 }
    let idx := GetNextWriteBuffer buffer_count s1
    if buffer_size < sz then (some ArenaError.serializeFailed, s1)
    else
      (none,
       { s1 with
         buffer_states := s1.buffer_states.set idx ⟨sz, true, now⟩
         write_sequence := s1.write_sequence + 1
         read_sem := s1.read_sem + 1
         stats := { s1.stats with
           bytes_written := s1.stats.bytes_written + sz
           writes_count := s1.stats.writes_count + 1 } })

/-- `SharedMemoryArena::ReadRecordBatch`.  `timed_out` is true when the
caller passed `timeout_ms >= 0` and `sem_timedwait` returned `ETIMEDOUT`;
otherwise the wait on `read_sem_` succeeded (callers supply
`0 < s.read_sem`).  `deser_ok` abstracts the Arrow
`DeserializeRecordBatch` outcome on the slot's bytes. -/
def readRecordBatch (buffer_count : Nat) (is_writer is_attached : Bool)
    (timed_out deser_ok : Bool) (s : ArenaState) :
    Option ArenaError × ArenaState :=
  if is_writer || !is_attached then (some ArenaError.notReader, s)
  else if timed_out then
    (some ArenaError.timeout,
     { s with stats := { s.stats with wait_timeouts := s.stats.wait_timeouts + 1 } })
  else
    let s1 := { s with read_sem := s.read_sem - 1 }
    let idx := GetCurrentReadBuffer buffer_count s1
    let slot := s1.buffer_states.getD idx emptySlot
    if !slot.ready then
      (some ArenaError.bufferNotReady, { s1 with write_sem := s1.write_sem + 1 })
    else
      let s2 := { s1 with
        buffer_states := s1.buffer_states.set idx { slot with ready := false }
        read_sequence := s1.read_sequence + 1
        write_sem := s1.write_sem + 1 }
      if deser_ok then
        (none,
         { s2 with stats := { s2.stats with
             bytes_read := s2.stats.bytes_read + slot.data_size
             reads_count := s2.stats.reads_count + 1 } })
      else (some ArenaError.deserializeFailed, s2)

/-- The shared state right after `CreateWriter`: free semaphore at
`buffer_count`, ready semaphore at 0, both sequences 0, all slots empty. -/
def initState (buffer_count : Nat) : ArenaState :=
  { write_sem := buffer_count
    read_sem := 0
    write_sequence := 0
    read_sequence := 0
    buffer_states := List.replicate buffer_count emptySlot
    stats := ⟨0, 0, 0, 0, 0⟩ }

/-- One completed arena operation on the shared state: a producer call of
`WriteRecordBatch` (any batch size, so both the publish and the
serialization-failure return are steps) or a consumer call of
`ReadRecordBatch` (any deserialization outcome).  A `sem_wait` on a zero
counter blocks, so such a call is not a step. -/
inductive Step (buffer_count buffer_size : Nat) : ArenaState → ArenaState → Prop where
  | produce (s : ArenaState) (sz now : Nat) (h : 0 < s.write_sem) :
      Step buffer_count buffer_size s
        (writeRecordBatch buffer_count buffer_size true true sz now s).2
  | consume (s : ArenaState) (ok : Bool) (h : 0 < s.read_sem) :
      Step buffer_count buffer_size s
        (readRecordBatch buffer_count false true false ok s).2

/-- States reachable from the fresh ring by interleaved produce/consume. -/
def Reachable (buffer_count buffer_size : Nat) (s : ArenaState) : Prop :=
  Relation.ReflTransGen (Step buffer_count buffer_size) (initState buffer_count) s

/-! ## Helper lemmas -/

theorem getD_set_self {α : Type} (l : List α) (i : Nat) (b d : α)
    (h : i < l.length) : (l.set i b).getD i d = b := by
  simp [List.getD_eq_getElem?_getD, List.getElem?_set_eq_of_lt, h]

theorem getD_set_ne {α : Type} (l : List α) (i j : Nat) (b d : α)
    (h : i ≠ j) : (l.set i b).getD j d = l.getD j d := by
  simp [List.getD_eq_getElem?_getD, List.getElem?_set_ne h]

theorem mod_ne_of_between {N a b : Nat} (hab : a < b) (hb : b < a + N) :
    b % N ≠ a % N := by
  intro h
  have hd : N ∣ b - a := (Nat.modEq_iff_dvd' (Nat.le_of_lt hab)).1 h.symm
  have := Nat.le_of_dvd (by omega) hd
  omega

theorem alignDownCL_mod (x : Nat) : alignDownCL x % CACHE_LINE_SIZE = 0 := by
  unfold alignDownCL CACHE_LINE_SIZE
  omega

theorem le_alignUpCL (x : Nat) : x ≤ alignUpCL x := by
  unfold alignUpCL alignDownCL CACHE_LINE_SIZE
  omega

/-- Behaviour of `WriteRecordBatch` on a serialization failure
(`buffer_size < sz`): the error propagates and only the free-semaphore
decrement of the preceding `sem_wait` remains. -/
theorem writeRecordBatch_fail {N B sz now : Nat} (s : ArenaState) (h : B < sz) :
    writeRecordBatch N B true true sz now s =
      (some ArenaError.serializeFailed, { s with write_sem := s.write_sem - 1 }) := by
  simp [writeRecordBatch, h]

/-- Behaviour of `WriteRecordBatch` when serialization fits: the slot at
`write_sequence % buffer_count` is published and the counters advance. -/
theorem writeRecordBatch_ok {N B sz now : Nat} (s : ArenaState) (h : sz ≤ B) :
    writeRecordBatch N B true true sz now s =
      (none, { s with
        write_sem := s.write_sem - 1
        buffer_states := s.buffer_states.set (s.write_sequence % N) ⟨sz, true, now⟩
        write_sequence := s.write_sequence + 1
        read_sem := s.read_sem + 1
        stats := { s.stats with
          bytes_written := s.stats.bytes_written + sz
          writes_count := s.stats.writes_count + 1 } }) := by
  simp [writeRecordBatch, GetNextWriteBuffer, Nat.not_lt.2 h]

/-- The state `ReadRecordBatch` leaves when the slot's ready flag is set,
for either deserialization outcome: flag cleared, `read_sequence`
advanced, free token posted (the stats differ between the outcomes). -/
theorem readRecordBatch_ready_snd (N : Nat) (ok : Bool) (s : ArenaState)
    (h : (s.buffer_states.getD (s.read_sequence % N) emptySlot).ready = true) :
    ∃ st, (readRecordBatch N false true false ok s).2 =
      { s with
        read_sem := s.read_sem - 1
        write_sem := s.write_sem + 1
        buffer_states := s.buffer_states.set (s.read_sequence % N)
          { s.buffer_states.getD (s.read_sequence % N) emptySlot with ready := false }
        read_sequence := s.read_sequence + 1
        stats := st } := by
  have h' : (s.buffer_states[s.read_sequence % N]?.getD emptySlot).ready = true := by
    simpa [List.getD_eq_getElem?_getD] using h
  cases ok
  · exact ⟨s.stats, by simp [readRecordBatch, GetCurrentReadBuffer, h']⟩
  · exact ⟨{ s.stats with
        bytes_read := s.stats.bytes_read +
          (s.buffer_states.getD (s.read_sequence % N) emptySlot).data_size
        reads_count := s.stats.reads_count + 1 },
      by simp [readRecordBatch, GetCurrentReadBuffer, h', List.getD_eq_getElem?_getD]⟩

/-! ## The ring invariant -/

/-- The inductive invariant of the ring: the ready-semaphore counter
equals the number of published-but-unconsumed slots, the free-semaphore
counter never exceeds the remaining capacity, and every in-flight
sequence number's slot carries a set ready flag. -/
def Inv (N : Nat) (s : ArenaState) : Prop :=
  s.buffer_states.length = N ∧
  s.read_sequence ≤ s.write_sequence ∧
  s.read_sem = s.write_sequence - s.read_sequence ∧
  s.write_sem + (s.write_sequence - s.read_sequence) ≤ N ∧
  ∀ j, s.read_sequence ≤ j → j < s.write_sequence →
    (s.buffer_states.getD (j % N) emptySlot).ready = true

theorem inv_init (N : Nat) : Inv N (initState N) := by
  refine ⟨by simp [initState], Nat.le_refl 0, rfl, by simp [initState], ?_⟩
  intro j h1 h2
  exact absurd h2 (Nat.not_lt_zero j)

theorem inv_step {N B : Nat} {s s' : ArenaState} (hs : Inv N s)
    (st : Step N B s s') : Inv N s' := by
  obtain ⟨hlen, hrw, hrs, hws, hflag⟩ := hs
  cases st with
  | produce sz now h =>
    by_cases hsz : B < sz
    · rw [writeRecordBatch_fail s hsz]
      refine ⟨hlen, hrw, hrs, ?_, hflag⟩
      dsimp only
      omega
    · rw [writeRecordBatch_ok s (Nat.not_lt.1 hsz)]
      have hN : 0 < N := by omega
      refine ⟨by simp [hlen], by dsimp only; omega, by dsimp only; omega,
        by dsimp only; omega, ?_⟩
      dsimp only
      intro j hj1 hj2
      by_cases hcol : j % N = s.write_sequence % N
      · rw [hcol, getD_set_self _ _ _ _ (by rw [hlen]; exact Nat.mod_lt _ hN)]
      · rw [getD_set_ne _ _ _ _ _ (fun e => hcol e.symm)]
        have hjw : j ≠ s.write_sequence := fun e => hcol (by rw [e])
        exact hflag j hj1 (by omega)
  | consume ok h =>
    have hN : 0 < N := by omega
    have hrltw : s.read_sequence < s.write_sequence := by omega
    have hready := hflag s.read_sequence (Nat.le_refl _) hrltw
    obtain ⟨st', heq⟩ := readRecordBatch_ready_snd N ok s hready
    rw [heq]
    refine ⟨by simp [hlen], by dsimp only; omega, by dsimp only; omega,
      by dsimp only; omega, ?_⟩
    dsimp only
    intro j hj1 hj2
    have hne : j % N ≠ s.read_sequence % N :=
      mod_ne_of_between (by omega) (by omega)
    rw [getD_set_ne _ _ _ _ _ (fun e => hne e.symm)]
    exact hflag j (by omega) hj2

theorem inv_reachable {N B : Nat} {s : ArenaState}
    (h : Reachable N B s) : Inv N s := by
  induction h with
  | refl => exact inv_init N
  | tail hab hbc ih => exact inv_step ih hbc

/-! ## The claims -/

/-- C7: in every state reachable under any interleaved sequence of
produce and consume operations, `write_sequence` is at least
`read_sequence` and their difference is at most `buffer_count`. -/
theorem write_read_sequence_bounds (N B : Nat) (s : ArenaState)
    (h : Reachable N B s) :
    s.read_sequence ≤ s.write_sequence ∧
      s.write_sequence - s.read_sequence ≤ N := by
  obtain ⟨-, hrw, -, hws, -⟩ := inv_reachable h
  exact ⟨hrw, by omega⟩

/-- C7 witness: the bounds hold in the concrete state reached by one
produce of a 10-byte batch on a fresh 3-slot ring. -/
theorem write_read_sequence_bounds_witness :
    ((writeRecordBatch 3 1024 true true 10 0 (initState 3)).2).read_sequence ≤
        ((writeRecordBatch 3 1024 true true 10 0 (initState 3)).2).write_sequence ∧
      ((writeRecordBatch 3 1024 true true 10 0 (initState 3)).2).write_sequence -
        ((writeRecordBatch 3 1024 true true 10 0 (initState 3)).2).read_sequence ≤ 3 :=
  write_read_sequence_bounds 3 1024 _
    (Relation.ReflTransGen.single (Step.produce (initState 3) 10 0 (by decide)))

/-- C1: when serialization fails (`buffer_size < sz`), `WriteRecordBatch`
returns the error without publishing — `write_sequence`, every slot's
ready flag and `data_size`, the ready semaphore and the stats are exactly
those of the pre-call state, so the next produce targets the same slot —
but, against the claim, the free token is NOT released back: the free
semaphore ends strictly below its pre-wait value. -/
theorem produce_serialize_failure_keeps_state_not_token
    (N B sz now : Nat) (s : ArenaState) (h : 0 < s.write_sem) (hsz : B < sz) :
    writeRecordBatch N B true true sz now s =
      (some ArenaError.serializeFailed, { s with write_sem := s.write_sem - 1 }) ∧
    s.write_sem - 1 < s.write_sem :=
  ⟨writeRecordBatch_fail s hsz, by omega⟩

/-- C1 witness: a 65-byte batch on a 64-byte slot, free semaphore at 2. -/
theorem produce_serialize_failure_keeps_state_not_token_witness :
    writeRecordBatch 2 64 true true 65 7
        { write_sem := 2, read_sem := 0, write_sequence := 0, read_sequence := 0,
          buffer_states := [emptySlot, emptySlot], stats := ⟨0, 0, 0, 0, 0⟩ } =
      (some ArenaError.serializeFailed,
        { write_sem := 1, read_sem := 0, write_sequence := 0, read_sequence := 0,
          buffer_states := [emptySlot, emptySlot], stats := ⟨0, 0, 0, 0, 0⟩ }) ∧
    (2 : Nat) - 1 < 2 :=
  produce_serialize_failure_keeps_state_not_token 2 64 65 7 _ (by decide) (by decide)

/-- C6: a consume that acquired a ready token but finds the ready flag of
slot `read_sequence % buffer_count` false posts one free token back and
returns the inconsistent-state error (`IOError("Buffer not ready")`),
leaving `read_sequence`, every slot's ready flag and `data_size`, and the
stats unchanged, and returning no batch. -/
theorem consume_token_without_ready_flag
    (N : Nat) (ok : Bool) (s : ArenaState) (h : 0 < s.read_sem)
    (hflag : (s.buffer_states.getD (GetCurrentReadBuffer N s) emptySlot).ready = false) :
    readRecordBatch N false true false ok s =
      (some ArenaError.bufferNotReady,
       { s with read_sem := s.read_sem - 1, write_sem := s.write_sem + 1 }) := by
  have h' : (s.buffer_states[s.read_sequence % N]?.getD emptySlot).ready = false := by
    simpa [GetCurrentReadBuffer, List.getD_eq_getElem?_getD] using hflag
  simp [readRecordBatch, GetCurrentReadBuffer, h']

/-- C6 witness: one ready token over a single not-ready slot. -/
theorem consume_token_without_ready_flag_witness :
    readRecordBatch 1 false true false true
        { write_sem := 5, read_sem := 1, write_sequence := 0, read_sequence := 0,
          buffer_states := [emptySlot], stats := ⟨0, 0, 0, 0, 0⟩ } =
      (some ArenaError.bufferNotReady,
        { write_sem := 6, read_sem := 0, write_sequence := 0, read_sequence := 0,
          buffer_states := [emptySlot], stats := ⟨0, 0, 0, 0, 0⟩ }) :=
  consume_token_without_ready_flag 1 true _ (by decide) (by decide)

/-- C10: when the slot's ready flag is set but deserialization of its
bytes fails, the slot is consumed anyway — the flag is cleared,
`read_sequence` is incremented and one free token is posted — while the
stats (in particular `bytes_read` and `reads_count`) stay unchanged, so
the failed batch is dropped from the ring. -/
theorem consume_deserialize_failure_drops_batch
    (N : Nat) (s : ArenaState) (h : 0 < s.read_sem)
    (hready : (s.buffer_states.getD (GetCurrentReadBuffer N s) emptySlot).ready = true) :
    readRecordBatch N false true false false s =
      (some ArenaError.deserializeFailed,
       { s with
         read_sem := s.read_sem - 1
         write_sem := s.write_sem + 1
         buffer_states := s.buffer_states.set (GetCurrentReadBuffer N s)
           { s.buffer_states.getD (GetCurrentReadBuffer N s) emptySlot with ready := false }
         read_sequence := s.read_sequence + 1 }) := by
  have h' : (s.buffer_states[s.read_sequence % N]?.getD emptySlot).ready = true := by
    simpa [GetCurrentReadBuffer, List.getD_eq_getElem?_getD] using hready
  simp [readRecordBatch, GetCurrentReadBuffer, List.getD_eq_getElem?_getD, h']

/-- C10 witness: a ready 12-byte slot whose deserialization fails. -/
theorem consume_deserialize_failure_drops_batch_witness :
    readRecordBatch 1 false true false false
        { write_sem := 0, read_sem := 1, write_sequence := 0, read_sequence := 0,
          buffer_states := [⟨12, true, 9⟩], stats := ⟨0, 0, 0, 0, 0⟩ } =
      (some ArenaError.deserializeFailed,
        { write_sem := 1, read_sem := 0, write_sequence := 0, read_sequence := 1,
          buffer_states := [⟨12, false, 9⟩], stats := ⟨0, 0, 0, 0, 0⟩ }) :=
  consume_deserialize_failure_drops_batch 1 _ (by decide) (by decide)

/-- C8: the slot index of the next produce is
`write_sequence % buffer_count` and of the next consume
`read_sequence % buffer_count`; a successful produce writes exactly that
slot and increments `write_sequence` by one, and a successful consume
reads exactly that slot and increments `read_sequence` by one — strict
FIFO reuse of slot indices. -/
theorem fifo_slot_indices
    (N B sz now : Nat) (s t : ArenaState)
    (hw : 0 < s.write_sem) (hsz : sz ≤ B)
    (hr : 0 < t.read_sem)
    (hready : (t.buffer_states.getD (GetCurrentReadBuffer N t) emptySlot).ready = true) :
    GetNextWriteBuffer N s = s.write_sequence % N ∧
    GetCurrentReadBuffer N t = t.read_sequence % N ∧
    writeRecordBatch N B true true sz now s =
      (none, { s with
        write_sem := s.write_sem - 1
        buffer_states := s.buffer_states.set (GetNextWriteBuffer N s) ⟨sz, true, now⟩
        write_sequence := s.write_sequence + 1
        read_sem := s.read_sem + 1
        stats := { s.stats with
          bytes_written := s.stats.bytes_written + sz
          writes_count := s.stats.writes_count + 1 } }) ∧
    readRecordBatch N false true false true t =
      (none, { t with
        read_sem := t.read_sem - 1
        write_sem := t.write_sem + 1
        buffer_states := t.buffer_states.set (GetCurrentReadBuffer N t)
          { t.buffer_states.getD (GetCurrentReadBuffer N t) emptySlot with ready := false }
        read_sequence := t.read_sequence + 1
        stats := { t.stats with
          bytes_read := t.stats.bytes_read +
            (t.buffer_states.getD (GetCurrentReadBuffer N t) emptySlot).data_size
          reads_count := t.stats.reads_count + 1 } }) := by
  refine ⟨rfl, rfl, writeRecordBatch_ok s hsz, ?_⟩
  have h' : (t.buffer_states[t.read_sequence % N]?.getD emptySlot).ready = true := by
    simpa [GetCurrentReadBuffer, List.getD_eq_getElem?_getD] using hready
  simp [readRecordBatch, GetCurrentReadBuffer, List.getD_eq_getElem?_getD, h']

/-- C8 witness: a produce on a fresh 2-slot ring and a consume of its
published slot. -/
theorem fifo_slot_indices_witness :
    GetNextWriteBuffer 2
        { write_sem := 2, read_sem := 0, write_sequence := 0, read_sequence := 0,
          buffer_states := [emptySlot, emptySlot], stats := ⟨0, 0, 0, 0, 0⟩ } = 0 % 2 ∧
    GetCurrentReadBuffer 2
        { write_sem := 1, read_sem := 1, write_sequence := 1, read_sequence := 0,
          buffer_states := [⟨8, true, 5⟩, emptySlot], stats := ⟨0, 0, 0, 0, 0⟩ } = 0 % 2 ∧
    writeRecordBatch 2 64 true true 8 5
        { write_sem := 2, read_sem := 0, write_sequence := 0, read_sequence := 0,
          buffer_states := [emptySlot, emptySlot], stats := ⟨0, 0, 0, 0, 0⟩ } =
      (none,
        { write_sem := 1, read_sem := 1, write_sequence := 1, read_sequence := 0,
          buffer_states := [⟨8, true, 5⟩, emptySlot], stats := ⟨8, 0, 1, 0, 0⟩ }) ∧
    readRecordBatch 2 false true false true
        { write_sem := 1, read_sem := 1, write_sequence := 1, read_sequence := 0,
          buffer_states := [⟨8, true, 5⟩, emptySlot], stats := ⟨0, 0, 0, 0, 0⟩ } =
      (none,
        { write_sem := 2, read_sem := 0, write_sequence := 1, read_sequence := 1,
          buffer_states := [⟨8, false, 5⟩, emptySlot], stats := ⟨0, 8, 0, 1, 0⟩ }) :=
  fifo_slot_indices 2 64 8 5 _ _ (by decide) (by decide) (by decide) (by decide)

/-- C2 counterexample: a header whose geometry violates
`buffers_offset + buffer_count * buffer_size ≤ total_size` and whose
`total_size` field disagrees with the OS-reported size still attaches and
returns a handle — the claimed CorruptHeader checks do not exist. -/
theorem attach_ignores_geometry_counterexample :
    320 + 8 * 1000 > (100 : Nat) ∧ (100 : Nat) ≠ 999 ∧
    attachSharedMemory
      ⟨MAGIC_NUMBER, VERSION, 100, 307, 0, 0, 8, 1000, 320, 0, 0, true, 0, "", "", []⟩
      999 = some ⟨8, 1000, 999⟩ := by decide

/-- C2 amended: consumer attach fails, returning no handle, exactly when
the magic is not `0x51444153` or the version is not 1 (one combined
check with a single undifferentiated failure); when both match it
succeeds unconditionally, copying `buffer_count` and `buffer_size` from
the header and taking `total_size` from the OS-reported mapping size,
with no geometry cross-check. -/
theorem attach_checks_only_magic_and_version (hdr : SharedMemoryHeader) (osSize : Nat) :
    (attachSharedMemory hdr osSize = none ↔
      (hdr.magic ≠ MAGIC_NUMBER ∨ hdr.version ≠ VERSION)) ∧
    (hdr.magic = MAGIC_NUMBER ∧ hdr.version = VERSION →
      attachSharedMemory hdr osSize =
        some ⟨hdr.buffer_count, hdr.buffer_size, osSize⟩) := by
  by_cases h1 : hdr.magic = MAGIC_NUMBER <;> by_cases h2 : hdr.version = VERSION <;>
    simp [attachSharedMemory, h1, h2]

/-- C3 counterexample: a producer attach with `total_size = 100`, below
the 320-byte minimum viable header for one slot, still returns a handle,
whose `buffer_size` is the `size_t`-wraparound value `2 ^ 64 - 256`. -/
theorem createWriter_small_region_counterexample :
    (100 : Nat) < ctorHeaderSize 1 ∧
    (createWriter "t" 100 1 false).isSome = true ∧
    Option.map ArenaHandle.buffer_size (createWriter "t" 100 1 false) =
      some 18446744073709551360 := by decide

/-- C3 amended: no minimum-size validation exists; whenever
`total_size < header_size` the producer attach still succeeds and its
buffer geometry is computed from the mod-`2 ^ 64` wraparound of
`total_size - header_size`. -/
theorem createWriter_no_minimum_size_check (name : String) (ts n : Nat)
    (hts : ts < ctorHeaderSize n) (hbound : ctorHeaderSize n ≤ U64) :
    (createWriter name ts n false).isSome = true ∧
    Option.map ArenaHandle.buffer_size (createWriter name ts n false) =
      some (alignDownCL ((U64 - (ctorHeaderSize n - ts)) / n)) := by
  have hsub : subU64 ts (ctorHeaderSize n) = U64 - (ctorHeaderSize n - ts) := by
    unfold subU64
    have e : ts + U64 - ctorHeaderSize n = U64 - (ctorHeaderSize n - ts) := by omega
    rw [e, Nat.mod_eq_of_lt (by omega)]
  refine ⟨rfl, ?_⟩
  simp [createWriter, ctorBufferSize, hsub]

/-- C3 witness: the amended statement at `total_size = 100`, one slot. -/
theorem createWriter_no_minimum_size_check_witness :
    (createWriter "t" 100 1 false).isSome = true ∧
    Option.map ArenaHandle.buffer_size (createWriter "t" 100 1 false) =
      some (alignDownCL ((U64 - (ctorHeaderSize 1 - 100)) / 1)) :=
  createWriter_no_minimum_size_check "t" 100 1 (by decide) (by decide)

/-- C4 counterexample: with `buffer_count = 3` the stored `header_size`
is the unaligned 307, not the claimed cache-line round-up 320, and
`buffers_offset` (320) differs from `header_size`. -/
theorem header_size_not_aligned_counterexample :
    (initializeHeader 4194304 3 (ctorBufferSize 4194304 3)).header_size = 307 ∧
    alignUpCL (sizeofSharedMemoryHeader + sizeofBufferState * 3) = 320 ∧
    (initializeHeader 4194304 3 (ctorBufferSize 4194304 3)).header_size ≠
      alignUpCL (sizeofSharedMemoryHeader + sizeofBufferState * 3) ∧
    (initializeHeader 4194304 3 (ctorBufferSize 4194304 3)).buffers_offset ≠
      (initializeHeader 4194304 3 (ctorBufferSize 4194304 3)).header_size := by decide

/-- C4 amended: the header written by a producer attach stores
`header_size = sizeof(Header) + buffer_count * sizeof(SlotState)` WITHOUT
the cache-line round-up, `buffers_offset` equal to that value rounded up
to the 64-byte cache line (hence 64-aligned and at least `header_size`),
and `buffer_size` equal to `(total_size - buffers_offset) / buffer_count`
(in wrapping `size_t` arithmetic) rounded down to the cache line. -/
theorem initializeHeader_geometry (ts n : Nat) :
    (initializeHeader ts n (ctorBufferSize ts n)).header_size = rawHeaderSize n ∧
    (initializeHeader ts n (ctorBufferSize ts n)).buffers_offset =
      alignUpCL (rawHeaderSize n) ∧
    (initializeHeader ts n (ctorBufferSize ts n)).buffer_size =
      alignDownCL (subU64 ts (alignUpCL (rawHeaderSize n)) / n) ∧
    (initializeHeader ts n (ctorBufferSize ts n)).buffers_offset % CACHE_LINE_SIZE = 0 ∧
    (initializeHeader ts n (ctorBufferSize ts n)).buffer_size % CACHE_LINE_SIZE = 0 ∧
    (initializeHeader ts n (ctorBufferSize ts n)).header_size ≤
      (initializeHeader ts n (ctorBufferSize ts n)).buffers_offset :=
  ⟨rfl, rfl, rfl, alignDownCL_mod _, alignDownCL_mod _, le_alignUpCL _⟩

/-- C5 counterexample: for user name `t1` the free-slots semaphore (the
one created with initial value `buffer_count`) is named `/qads_w_t1`,
not the claimed `/qads_f_t1`. -/
theorem free_semaphore_name_counterexample :
    writeSemName "t1" = "/qads_w_t1" ∧
    writeSemName "t1" ≠ "/qads_f_t1" ∧
    SemOp.openExcl (writeSemName "t1") 0o644 3 ∈ createWriterSemOps "t1" 3 := by decide

/-- C5 amended: the names written into the header are `/qads_w_<name>`
for the free-slots semaphore and `/qads_r_<name>` for the ready-slots
semaphore, each truncated by `snprintf` to at most 63 bytes plus the
null terminator. -/
theorem semaphore_names_from_format_strings (name : String) :
    writeSemName name = truncCString 64 ("/qads_w_" ++ name) ∧
    readSemName name = truncCString 64 ("/qads_r_" ++ name) ∧
    (writeSemName name).length ≤ 63 ∧
    (readSemName name).length ≤ 63 := by
  have hl : ∀ s : String, (truncCString 64 s).length ≤ 63 := by
    intro s
    show (s.toList.take 63).length ≤ 63
    rw [List.length_take]
    omega
  exact ⟨rfl, rfl, hl _, hl _⟩

/-- C9: producer attach first unlinks both semaphore names and then
creates them exclusively, the free-slots semaphore with initial value
`buffer_count` and the ready-slots semaphore with initial value 0, each
creation after the unlink of the same name. -/
theorem createWriter_semaphore_protocol (name : String) (n : Nat) :
    ∃ fname rname,
      createWriterSemOps name n =
        [SemOp.unlink fname, SemOp.unlink rname,
         SemOp.openExcl fname 0o644 n, SemOp.openExcl rname 0o644 0] :=
  ⟨writeSemName name, readSemName name, rfl⟩

end QADataSwap
